import Mathlib

/-!
Shallow embedding of `src/joint/revolute_constraint.rs` from the nphysics
repository: the `RevoluteConstraint` joint and its two interfaces
(`JointConstraint`, `NonlinearConstraintGenerator`).

The Rust file is compiled in two mutually exclusive configurations
(`dim2` / `dim3`); we embed each configuration in its own namespace
(`Dim2`, `Dim3`), mirroring the `#[cfg(feature = ...)]` split of the source.

External collaborators (the constraint-math helpers `helper::*`, body
storage, the shared constraint buffer) are modelled at their interface
boundary: helper functions are taken as parameters of the embedded
operations, so every theorem about call structure is quantified over
arbitrary helpers.  Scalars are ℚ; the mutable state threaded through
`velocity_constraints` in Rust (`ground_j_id`, `j_id`, `jacobians`,
`constraints`) is packaged as an explicit `SolverState` record.
-/

namespace Nphysics

/-- One bilateral constraint row of the shared constraint buffer, restricted
to the two fields the joint ever reads (`impulse_id`, `impulse`). -/
structure BilateralRow where
  impulse_id : Nat
  impulse : ℚ
deriving DecidableEq

/-- A half-open index range `start..stop`, embedding Rust's `Range<usize>`. -/
structure URange where
  start : Nat
  stop : Nat
deriving DecidableEq

/-- The `velocity` part of the shared `ConstraintSet`: the ground-relative and
body-to-body bilateral constraint lists. -/
structure VelocityConstraints where
  bilateral_ground : List BilateralRow
  bilateral : List BilateralRow
deriving DecidableEq

/-- The shared constraint set (only the parts this joint touches). -/
structure ConstraintSet where
  velocity : VelocityConstraints
deriving DecidableEq

/-- Rust slice indexing `&l[r.start..r.stop]`: defined (`some`) exactly when
`r.start ≤ r.stop ≤ l.length`, otherwise the access panics (`none`). -/
def sliceRange (l : List BilateralRow) (r : URange) : Option (List BilateralRow) :=
  if r.start ≤ r.stop ∧ r.stop ≤ l.length then
    some ((l.drop r.start).take (r.stop - r.start))
  else
    none

namespace Dim2

/-- `math::DIM` in the `dim2` configuration. -/
def DIM : Nat := 2

/-- The angular dimension in the `dim2` configuration. -/
def ANGULAR_DIM : Nat := 1

/-- `math::SPATIAL_DIM` in the `dim2` configuration. -/
def SPATIAL_DIM : Nat := 3

/-- A 2D point (`Point<N>`). -/
abbrev Point : Type := ℚ × ℚ

/-- A 2D linear vector (`Vector<N>`). -/
abbrev Vector2 : Type := ℚ × ℚ

/-- A 2D angular vector (`AngularVector<N>`, one component). -/
abbrev AngularVector : Type := ℚ

/-- A 2D rigid transform: rotation matrix entries plus translation. -/
structure Isometry where
  r11 : ℚ
  r12 : ℚ
  r21 : ℚ
  r22 : ℚ
  tx : ℚ
  ty : ℚ
deriving DecidableEq

/-- Application of a rigid transform to a point (`pos * point` in nalgebra). -/
def applyPoint (iso : Isometry) (p : Point) : Point :=
  (iso.r11 * p.1 + iso.r12 * p.2 + iso.tx, iso.r21 * p.1 + iso.r22 * p.2 + iso.ty)

/-- A body-part view as exposed by the body-access collaborator. -/
structure BodyPart where
  position : Isometry
  parent_companion_id : Nat
deriving DecidableEq

/-- The body-access collaborator: resolves a handle (`Nat`) to a body-part
view, and exposes the per-body activity predicate used by `is_active`. -/
structure BodySet where
  body_part : Nat → BodyPart
  is_body_active : Nat → Bool

/-- Integration parameters; passed through to the helpers, never inspected. -/
structure IntegrationParameters where
  dt : ℚ
deriving DecidableEq

/-- The mutable solver state threaded by reference through
`velocity_constraints` in the source: the two monotone cursors, the Jacobian
scratch storage, and the shared constraint set. -/
structure SolverState where
  ground_j_id : Nat
  j_id : Nat
  jacobians : List ℚ
  constraints : ConstraintSet
deriving DecidableEq

/-- The `RevoluteConstraint` struct in the `dim2` configuration. -/
structure RevoluteConstraint where
  b1 : Nat
  b2 : Nat
  anchor1 : Point
  anchor2 : Point
  lin_impulses : Vector2
  ang_impulses : AngularVector
  bilateral_ground_rng : URange
  bilateral_rng : URange
deriving DecidableEq

/-- `RevoluteConstraint::new` in the `dim2` configuration. -/
def new (b1 b2 : Nat) (anchor1 anchor2 : Point) : RevoluteConstraint :=
  { b1 := b1
    b2 := b2
    anchor1 := anchor1
    anchor2 := anchor2
    lin_impulses := (0, 0)
    ang_impulses := 0
    bilateral_ground_rng := ⟨0, 0⟩
    bilateral_rng := ⟨0, 0⟩ }

/-- `num_velocity_constraints`. -/
def num_velocity_constraints (_j : RevoluteConstraint) : Nat :=
  SPATIAL_DIM - 1

/-- `anchors`. -/
def anchors (j : RevoluteConstraint) : Nat × Nat :=
  (j.b1, j.b2)

/-- Indexed write `v[i] = x` on the 2-component linear impulse vector;
`none` models the out-of-bounds panic. -/
def setLin (v : Vector2) (i : Nat) (x : ℚ) : Option Vector2 :=
  match i with
  | 0 => some (x, v.2)
  | 1 => some (v.1, x)
  | _ => none

/-- Indexed write `v[i] = x` on the 1-component angular impulse vector;
`none` models the out-of-bounds panic. -/
def setAng (v : AngularVector) (i : Nat) (x : ℚ) : Option AngularVector :=
  match i with
  | 0 => some x
  | _ => none

/-- The body of the `for` loops of `cache_impulses`: route one row's impulse
into the linear accumulator when `impulse_id < DIM`, else into the angular
accumulator at `impulse_id - DIM`. -/
def applyRow (j : RevoluteConstraint) (c : BilateralRow) : Option RevoluteConstraint :=
  if c.impulse_id < DIM then
    match setLin j.lin_impulses c.impulse_id c.impulse with
    | some v => some { j with lin_impulses := v }
    | none => none
  else
    match setAng j.ang_impulses (c.impulse_id - DIM) c.impulse with
    | some v => some { j with ang_impulses := v }
    | none => none

/-- A `for c in rows` loop applying `applyRow` to each row in order. -/
def cacheLoop (j : RevoluteConstraint) : List BilateralRow → Option RevoluteConstraint
  | [] => some j
  | c :: rest =>
    match applyRow j c with
    | some j1 => cacheLoop j1 rest
    | none => none

/-- `cache_impulses`: slice each of the two shared lists by the recorded
range and fold the routing loop over each slice in order.  The Rust method
takes `&mut self` and `&ConstraintSet`; the embedding returns both pieces of
reachable state, so that non-modification of the set is visible. -/
def cache_impulses (j : RevoluteConstraint) (constraints : ConstraintSet) :
    Option (RevoluteConstraint × ConstraintSet) := do
  let g ← sliceRange constraints.velocity.bilateral_ground j.bilateral_ground_rng
  let j1 ← cacheLoop j g
  let b ← sliceRange constraints.velocity.bilateral j.bilateral_rng
  let j2 ← cacheLoop j1 b
  return (j2, constraints)

/-- The type of the `helper::cancel_relative_linear_velocity` collaborator:
body views, assembly ids, world anchors, external velocities, warm-start
impulses, impulse-id offset, then the threaded solver state. -/
abbrev CancelLinHelper : Type :=
  BodyPart → BodyPart → Nat → Nat → Point → Point → List ℚ → Vector2 → Nat →
    SolverState → SolverState

/-- `velocity_constraints` in the `dim2` configuration, parameterized by the
`cancel_relative_linear_velocity` helper collaborator. -/
def velocity_constraints (cancel_relative_linear_velocity : CancelLinHelper)
    (j : RevoluteConstraint) (bodies : BodySet) (ext_vels : List ℚ)
    (st : SolverState) : RevoluteConstraint × SolverState :=
  let b1 := bodies.body_part j.b1
  let b2 := bodies.body_part j.b2
  let pos1 := b1.position
  let pos2 := b2.position
  let anchor1 := applyPoint pos1 j.anchor1
  let anchor2 := applyPoint pos2 j.anchor2
  let assembly_id1 := b1.parent_companion_id
  let assembly_id2 := b2.parent_companion_id
  let first_bilateral_ground := st.constraints.velocity.bilateral_ground.length
  let first_bilateral := st.constraints.velocity.bilateral.length
  let st1 := cancel_relative_linear_velocity b1 b2 assembly_id1 assembly_id2
    anchor1 anchor2 ext_vels j.lin_impulses 0 st
  ({ j with
      bilateral_ground_rng :=
        ⟨first_bilateral_ground, st1.constraints.velocity.bilateral_ground.length⟩
      bilateral_rng := ⟨first_bilateral, st1.constraints.velocity.bilateral.length⟩ },
    st1)

/-- Modelled from the spec: the `is_active` predicate is provided by the
`NonlinearConstraintGenerator` trait, whose code is not under `src/`; the
spec says activity is a predicate over the joint's two bodies delegated to
the body-access collaborator, with the joint inactive exactly when both
bodies are inactive. -/
def is_active (j : RevoluteConstraint) (bodies : BodySet) : Bool :=
  bodies.is_body_active j.b1 || bodies.is_body_active j.b2

/-- `num_position_constraints`, mirroring the source's `if DIM == 3` branch. -/
def num_position_constraints (j : RevoluteConstraint) (bodies : BodySet) : Nat :=
  if is_active j bodies then
    if DIM = 3 then 2 else 1
  else
    0

/-- The type of the `helper::cancel_relative_translation` collaborator for
the nonlinear pass, returning an optional constraint of abstract type `α`. -/
abbrev CancelTransHelper (α : Type) : Type :=
  IntegrationParameters → BodyPart → BodyPart → Point → Point → List ℚ → Option α

/-- `position_constraint` in the `dim2` configuration, parameterized by the
`cancel_relative_translation` helper collaborator. -/
def position_constraint {α : Type}
    (cancel_relative_translation : CancelTransHelper α)
    (j : RevoluteConstraint) (params : IntegrationParameters) (i : Nat)
    (bodies : BodySet) (jacobians : List ℚ) : Option α :=
  let body1 := bodies.body_part j.b1
  let body2 := bodies.body_part j.b2
  let pos1 := body1.position
  let pos2 := body2.position
  let anchor1 := applyPoint pos1 j.anchor1
  let anchor2 := applyPoint pos2 j.anchor2
  if i = 0 then
    cancel_relative_translation params body1 body2 anchor1 anchor2 jacobians
  else
    none

/-- Total update `v[i] := x` on the 2-component linear vector, leaving `v`
unchanged out of range; used by the spec-side routing function. -/
def updateLin (v : Vector2) (i : Nat) (x : ℚ) : Vector2 :=
  match i with
  | 0 => (x, v.2)
  | 1 => (v.1, x)
  | _ => v

/-- Total update `v[i] := x` on the 1-component angular vector, leaving `v`
unchanged out of range; used by the spec-side routing function. -/
def updateAng (v : AngularVector) (i : Nat) (x : ℚ) : AngularVector :=
  match i with
  | 0 => x
  | _ => v

/-- Spec-side routing function, following the spec's words: each row is read
exactly once, in order, and its impulse routed into the linear accumulator
when `impulse_id < DIM` and into the angular accumulator at
`impulse_id − DIM` otherwise. -/
def routeSpec (acc : Vector2 × AngularVector) (rows : List BilateralRow) :
    Vector2 × AngularVector :=
  rows.foldl
    (fun a c =>
      if c.impulse_id < DIM then (updateLin a.1 c.impulse_id c.impulse, a.2)
      else (a.1, updateAng a.2 (c.impulse_id - DIM) c.impulse))
    acc

/-- Combined number of rows held by the two shared constraint lists. -/
def totalRows (st : SolverState) : Nat :=
  st.constraints.velocity.bilateral_ground.length +
    st.constraints.velocity.bilateral.length

end Dim2

namespace Dim3

/-- `math::DIM` in the `dim3` configuration. -/
def DIM : Nat := 3

/-- The angular dimension in the `dim3` configuration. -/
def ANGULAR_DIM : Nat := 3

/-- `math::SPATIAL_DIM` in the `dim3` configuration. -/
def SPATIAL_DIM : Nat := 6

/-- A 3D point (`Point<N>`). -/
abbrev Point : Type := ℚ × ℚ × ℚ

/-- A 3D linear vector (`Vector<N>`). -/
abbrev Vector3 : Type := ℚ × ℚ × ℚ

/-- A 3D angular vector (`AngularVector<N>`). -/
abbrev AngularVector : Type := ℚ × ℚ × ℚ

/-- A 3D rigid transform: rotation matrix entries plus translation. -/
structure Isometry where
  r11 : ℚ
  r12 : ℚ
  r13 : ℚ
  r21 : ℚ
  r22 : ℚ
  r23 : ℚ
  r31 : ℚ
  r32 : ℚ
  r33 : ℚ
  tx : ℚ
  ty : ℚ
  tz : ℚ
deriving DecidableEq

/-- Application of a rigid transform to a point (`pos * point` in nalgebra):
rotation followed by translation. -/
def applyPoint (iso : Isometry) (p : Point) : Point :=
  (iso.r11 * p.1 + iso.r12 * p.2.1 + iso.r13 * p.2.2 + iso.tx,
   iso.r21 * p.1 + iso.r22 * p.2.1 + iso.r23 * p.2.2 + iso.ty,
   iso.r31 * p.1 + iso.r32 * p.2.1 + iso.r33 * p.2.2 + iso.tz)

/-- Application of a rigid transform to a (unit) vector (`pos * axis` in
nalgebra): rotation only, no translation. -/
def applyVec (iso : Isometry) (v : AngularVector) : AngularVector :=
  (iso.r11 * v.1 + iso.r12 * v.2.1 + iso.r13 * v.2.2,
   iso.r21 * v.1 + iso.r22 * v.2.1 + iso.r23 * v.2.2,
   iso.r31 * v.1 + iso.r32 * v.2.1 + iso.r33 * v.2.2)

/-- A body-part view as exposed by the body-access collaborator. -/
structure BodyPart where
  position : Isometry
  parent_companion_id : Nat
deriving DecidableEq

/-- The body-access collaborator: resolves a handle (`Nat`) to a body-part
view, and exposes the per-body activity predicate used by `is_active`. -/
structure BodySet where
  body_part : Nat → BodyPart
  is_body_active : Nat → Bool

/-- Integration parameters; passed through to the helpers, never inspected. -/
structure IntegrationParameters where
  dt : ℚ
deriving DecidableEq

/-- The mutable solver state threaded by reference through
`velocity_constraints` in the source. -/
structure SolverState where
  ground_j_id : Nat
  j_id : Nat
  jacobians : List ℚ
  constraints : ConstraintSet
deriving DecidableEq

/-- The `RevoluteConstraint` struct in the `dim3` configuration: the same
fields as in 2D plus the two local-frame unit axes. -/
structure RevoluteConstraint where
  b1 : Nat
  b2 : Nat
  anchor1 : Point
  anchor2 : Point
  axis1 : AngularVector
  axis2 : AngularVector
  lin_impulses : Vector3
  ang_impulses : AngularVector
  bilateral_ground_rng : URange
  bilateral_rng : URange
deriving DecidableEq

/-- `RevoluteConstraint::new` in the `dim3` configuration. -/
def new (b1 b2 : Nat) (anchor1 : Point) (axis1 : AngularVector)
    (anchor2 : Point) (axis2 : AngularVector) : RevoluteConstraint :=
  { b1 := b1
    b2 := b2
    anchor1 := anchor1
    anchor2 := anchor2
    axis1 := axis1
    axis2 := axis2
    lin_impulses := (0, 0, 0)
    ang_impulses := (0, 0, 0)
    bilateral_ground_rng := ⟨0, 0⟩
    bilateral_rng := ⟨0, 0⟩ }

/-- `num_velocity_constraints`. -/
def num_velocity_constraints (_j : RevoluteConstraint) : Nat :=
  SPATIAL_DIM - 1

/-- `anchors`. -/
def anchors (j : RevoluteConstraint) : Nat × Nat :=
  (j.b1, j.b2)

/-- Indexed write `v[i] = x` on the 3-component linear impulse vector;
`none` models the out-of-bounds panic. -/
def setLin (v : Vector3) (i : Nat) (x : ℚ) : Option Vector3 :=
  match i with
  | 0 => some (x, v.2.1, v.2.2)
  | 1 => some (v.1, x, v.2.2)
  | 2 => some (v.1, v.2.1, x)
  | _ => none

/-- Indexed write `v[i] = x` on the 3-component angular impulse vector;
`none` models the out-of-bounds panic. -/
def setAng (v : AngularVector) (i : Nat) (x : ℚ) : Option AngularVector :=
  match i with
  | 0 => some (x, v.2.1, v.2.2)
  | 1 => some (v.1, x, v.2.2)
  | 2 => some (v.1, v.2.1, x)
  | _ => none

/-- The body of the `for` loops of `cache_impulses`: route one row's impulse
into the linear accumulator when `impulse_id < DIM`, else into the angular
accumulator at `impulse_id - DIM`. -/
def applyRow (j : RevoluteConstraint) (c : BilateralRow) : Option RevoluteConstraint :=
  if c.impulse_id < DIM then
    match setLin j.lin_impulses c.impulse_id c.impulse with
    | some v => some { j with lin_impulses := v }
    | none => none
  else
    match setAng j.ang_impulses (c.impulse_id - DIM) c.impulse with
    | some v => some { j with ang_impulses := v }
    | none => none

/-- A `for c in rows` loop applying `applyRow` to each row in order. -/
def cacheLoop (j : RevoluteConstraint) : List BilateralRow → Option RevoluteConstraint
  | [] => some j
  | c :: rest =>
    match applyRow j c with
    | some j1 => cacheLoop j1 rest
    | none => none

/-- `cache_impulses`: slice each of the two shared lists by the recorded
range and fold the routing loop over each slice in order. -/
def cache_impulses (j : RevoluteConstraint) (constraints : ConstraintSet) :
    Option (RevoluteConstraint × ConstraintSet) := do
  let g ← sliceRange constraints.velocity.bilateral_ground j.bilateral_ground_rng
  let j1 ← cacheLoop j g
  let b ← sliceRange constraints.velocity.bilateral j.bilateral_rng
  let j2 ← cacheLoop j1 b
  return (j2, constraints)

/-- The type of the `helper::cancel_relative_linear_velocity` collaborator. -/
abbrev CancelLinHelper : Type :=
  BodyPart → BodyPart → Nat → Nat → Point → Point → List ℚ → Vector3 → Nat →
    SolverState → SolverState

/-- The type of the `helper::restrict_relative_angular_velocity_to_axis`
collaborator: additionally receives the world axis of body 1, and the
angular warm-start impulses with impulse-id offset `DIM`. -/
abbrev RestrictAngHelper : Type :=
  BodyPart → BodyPart → Nat → Nat → AngularVector → Point → Point → List ℚ →
    AngularVector → Nat → SolverState → SolverState

/-- `velocity_constraints` in the `dim3` configuration, parameterized by the
two helper collaborators. -/
def velocity_constraints (cancel_relative_linear_velocity : CancelLinHelper)
    (restrict_relative_angular_velocity_to_axis : RestrictAngHelper)
    (j : RevoluteConstraint) (bodies : BodySet) (ext_vels : List ℚ)
    (st : SolverState) : RevoluteConstraint × SolverState :=
  let b1 := bodies.body_part j.b1
  let b2 := bodies.body_part j.b2
  let pos1 := b1.position
  let pos2 := b2.position
  let anchor1 := applyPoint pos1 j.anchor1
  let anchor2 := applyPoint pos2 j.anchor2
  let assembly_id1 := b1.parent_companion_id
  let assembly_id2 := b2.parent_companion_id
  let first_bilateral_ground := st.constraints.velocity.bilateral_ground.length
  let first_bilateral := st.constraints.velocity.bilateral.length
  let st1 := cancel_relative_linear_velocity b1 b2 assembly_id1 assembly_id2
    anchor1 anchor2 ext_vels j.lin_impulses 0 st
  let axis1 := applyVec pos1 j.axis1
  let st2 := restrict_relative_angular_velocity_to_axis b1 b2 assembly_id1
    assembly_id2 axis1 anchor1 anchor2 ext_vels j.ang_impulses DIM st1
  ({ j with
      bilateral_ground_rng :=
        ⟨first_bilateral_ground, st2.constraints.velocity.bilateral_ground.length⟩
      bilateral_rng := ⟨first_bilateral, st2.constraints.velocity.bilateral.length⟩ },
    st2)

/-- Modelled from the spec: the `is_active` predicate is provided by the
`NonlinearConstraintGenerator` trait, whose code is not under `src/`; the
spec says activity is a predicate over the joint's two bodies delegated to
the body-access collaborator, with the joint inactive exactly when both
bodies are inactive. -/
def is_active (j : RevoluteConstraint) (bodies : BodySet) : Bool :=
  bodies.is_body_active j.b1 || bodies.is_body_active j.b2

/-- `num_position_constraints`, mirroring the source's `if DIM == 3` branch. -/
def num_position_constraints (j : RevoluteConstraint) (bodies : BodySet) : Nat :=
  if is_active j bodies then
    if DIM = 3 then 2 else 1
  else
    0

/-- The type of the `helper::cancel_relative_translation` collaborator for
the nonlinear pass, returning an optional constraint of abstract type `α`. -/
abbrev CancelTransHelper (α : Type) : Type :=
  IntegrationParameters → BodyPart → BodyPart → Point → Point → List ℚ → Option α

/-- The type of the `helper::align_axis` collaborator for the nonlinear
pass: additionally receives the two world axes. -/
abbrev AlignAxisHelper (α : Type) : Type :=
  IntegrationParameters → BodyPart → BodyPart → Point → Point →
    AngularVector → AngularVector → List ℚ → Option α

/-- `position_constraint` in the `dim3` configuration, parameterized by the
two helper collaborators. -/
def position_constraint {α : Type}
    (cancel_relative_translation : CancelTransHelper α)
    (align_axis : AlignAxisHelper α)
    (j : RevoluteConstraint) (params : IntegrationParameters) (i : Nat)
    (bodies : BodySet) (jacobians : List ℚ) : Option α :=
  let body1 := bodies.body_part j.b1
  let body2 := bodies.body_part j.b2
  let pos1 := body1.position
  let pos2 := body2.position
  let anchor1 := applyPoint pos1 j.anchor1
  let anchor2 := applyPoint pos2 j.anchor2
  if i = 0 then
    cancel_relative_translation params body1 body2 anchor1 anchor2 jacobians
  else if i = 1 then
    let axis1 := applyVec pos1 j.axis1
    let axis2 := applyVec pos2 j.axis2
    align_axis params body1 body2 anchor1 anchor2 axis1 axis2 jacobians
  else
    none

/-- Total update `v[i] := x` on the 3-component linear vector, leaving `v`
unchanged out of range; used by the spec-side routing function. -/
def updateLin (v : Vector3) (i : Nat) (x : ℚ) : Vector3 :=
  match i with
  | 0 => (x, v.2.1, v.2.2)
  | 1 => (v.1, x, v.2.2)
  | 2 => (v.1, v.2.1, x)
  | _ => v

/-- Total update `v[i] := x` on the 3-component angular vector, leaving `v`
unchanged out of range; used by the spec-side routing function. -/
def updateAng (v : AngularVector) (i : Nat) (x : ℚ) : AngularVector :=
  match i with
  | 0 => (x, v.2.1, v.2.2)
  | 1 => (v.1, x, v.2.2)
  | 2 => (v.1, v.2.1, x)
  | _ => v

/-- Spec-side routing function, following the spec's words: each row is read
exactly once, in order, and its impulse routed into the linear accumulator
when `impulse_id < DIM` and into the angular accumulator at
`impulse_id − DIM` otherwise. -/
def routeSpec (acc : Vector3 × AngularVector) (rows : List BilateralRow) :
    Vector3 × AngularVector :=
  rows.foldl
    (fun a c =>
      if c.impulse_id < DIM then (updateLin a.1 c.impulse_id c.impulse, a.2)
      else (a.1, updateAng a.2 (c.impulse_id - DIM) c.impulse))
    acc

/-- Combined number of rows held by the two shared constraint lists. -/
def totalRows (st : SolverState) : Nat :=
  st.constraints.velocity.bilateral_ground.length +
    st.constraints.velocity.bilateral.length

end Dim3

/-!
Concrete sample instances, used by the witness theorems to evaluate the
embedded operations on closed inputs.
-/

/-- The identity 2D transform. -/
def iso2id : Dim2.Isometry := ⟨1, 0, 0, 1, 0, 0⟩

/-- A 2D transform with a nontrivial rotation and translation. -/
def iso2a : Dim2.Isometry := ⟨0, -1, 1, 0, 5, 7⟩

/-- A sample 2D body part. -/
def body2a : Dim2.BodyPart := ⟨iso2a, 4⟩

/-- A sample 2D body set resolving every handle to `body2a`, all bodies
active. -/
def bodies2 : Dim2.BodySet := ⟨fun _ => body2a, fun _ => true⟩

/-- A sample 2D body set with every body inactive. -/
def bodies2off : Dim2.BodySet := ⟨fun _ => body2a, fun _ => false⟩

/-- A sample 2D revolute constraint as constructed by `new`. -/
def joint2 : Dim2.RevoluteConstraint := Dim2.new 0 1 (1, 2) (3, 4)

/-- A sample 2D joint carrying nonempty recorded ranges. -/
def joint2r : Dim2.RevoluteConstraint :=
  { joint2 with bilateral_ground_rng := ⟨0, 1⟩, bilateral_rng := ⟨1, 2⟩ }

/-- A sample constraint set with one ground row and two paired rows, with
impulse ids on both sides of the `DIM = 2` partition. -/
def cset2 : ConstraintSet :=
  ⟨⟨[⟨0, 5⟩], [⟨2, 7⟩, ⟨1, 9⟩]⟩⟩

/-- An empty 2D solver state. -/
def state2 : Dim2.SolverState := ⟨0, 0, [], ⟨⟨[], []⟩⟩⟩

/-- A sample 2D linear-cancellation helper satisfying the row-count
contract: appends exactly `DIM = 2` rows to the ground list. -/
def cancelLin2 : Dim2.CancelLinHelper :=
  fun _ _ _ _ _ _ _ _ _ st =>
    { st with
        constraints :=
          ⟨⟨st.constraints.velocity.bilateral_ground ++ [⟨0, 0⟩, ⟨1, 0⟩],
            st.constraints.velocity.bilateral⟩⟩ }

/-- The identity 3D transform. -/
def iso3id : Dim3.Isometry := ⟨1, 0, 0, 0, 1, 0, 0, 0, 1, 0, 0, 0⟩

/-- A 3D transform with a nontrivial rotation and translation. -/
def iso3a : Dim3.Isometry := ⟨0, -1, 0, 1, 0, 0, 0, 0, 1, 5, 7, 11⟩

/-- A sample 3D body part. -/
def body3a : Dim3.BodyPart := ⟨iso3a, 6⟩

/-- A sample 3D body set resolving every handle to `body3a`, all bodies
active. -/
def bodies3 : Dim3.BodySet := ⟨fun _ => body3a, fun _ => true⟩

/-- A sample 3D body set with every body inactive. -/
def bodies3off : Dim3.BodySet := ⟨fun _ => body3a, fun _ => false⟩

/-- A sample 3D revolute constraint as constructed by `new`. -/
def joint3 : Dim3.RevoluteConstraint :=
  Dim3.new 0 1 (1, 2, 3) (0, 0, 1) (4, 5, 6) (0, 1, 0)

/-- A sample 3D joint carrying nonempty recorded ranges. -/
def joint3r : Dim3.RevoluteConstraint :=
  { joint3 with bilateral_ground_rng := ⟨0, 2⟩, bilateral_rng := ⟨1, 2⟩ }

/-- A sample constraint set with two ground rows and two paired rows, with
impulse ids on both sides of the `DIM = 3` partition. -/
def cset3 : ConstraintSet :=
  ⟨⟨[⟨0, 5⟩, ⟨4, 13⟩], [⟨2, 7⟩, ⟨5, 9⟩]⟩⟩

/-- An empty 3D solver state. -/
def state3 : Dim3.SolverState := ⟨0, 0, [], ⟨⟨[], []⟩⟩⟩

/-- A sample 3D linear-cancellation helper satisfying the row-count
contract: appends exactly `DIM = 3` rows to the ground list. -/
def cancelLin3 : Dim3.CancelLinHelper :=
  fun _ _ _ _ _ _ _ _ _ st =>
    { st with
        constraints :=
          ⟨⟨st.constraints.velocity.bilateral_ground ++ [⟨0, 0⟩, ⟨1, 0⟩, ⟨2, 0⟩],
            st.constraints.velocity.bilateral⟩⟩ }

/-- A sample 3D angular-restriction helper satisfying the row-count
contract: appends exactly `ANGULAR_DIM − 1 = 2` rows to the paired list. -/
def restrictAng3 : Dim3.RestrictAngHelper :=
  fun _ _ _ _ _ _ _ _ _ _ st =>
    { st with
        constraints :=
          ⟨⟨st.constraints.velocity.bilateral_ground,
            st.constraints.velocity.bilateral ++ [⟨3, 0⟩, ⟨4, 0⟩]⟩⟩ }

/-- A 2D linear-cancellation helper that records its two world-anchor
arguments into the Jacobian storage, used to observe which anchors the
emission step passes to the collaborator. -/
def cancelRec2 : Dim2.CancelLinHelper :=
  fun _ _ _ _ p1 p2 _ _ _ st =>
    { st with jacobians := [p1.1, p1.2, p2.1, p2.2] }

/-- A 2D translation-cancellation helper that returns its two world-anchor
arguments as the produced constraint. -/
def probeTrans2 : Dim2.CancelTransHelper (Dim2.Point × Dim2.Point) :=
  fun _ _ _ p1 p2 _ => some (p1, p2)

/-- A 3D linear-cancellation helper that records its two world-anchor
arguments into the Jacobian storage. -/
def cancelRec3 : Dim3.CancelLinHelper :=
  fun _ _ _ _ p1 p2 _ _ _ st =>
    { st with jacobians := [p1.1, p1.2.1, p1.2.2, p2.1, p2.2.1, p2.2.2] }

/-- A 3D angular-restriction helper that appends its world-axis argument to
the Jacobian storage. -/
def restrictRec3 : Dim3.RestrictAngHelper :=
  fun _ _ _ _ ax _ _ _ _ _ st =>
    { st with jacobians := st.jacobians ++ [ax.1, ax.2.1, ax.2.2] }

/-- A 3D translation-cancellation helper that returns its two world-anchor
arguments as the produced constraint. -/
def probeTrans3 : Dim3.CancelTransHelper (Dim3.Point × Dim3.Point) :=
  fun _ _ _ p1 p2 _ => some (p1, p2)

/-- A 3D axis-alignment helper that returns its two world-axis arguments as
the produced constraint. -/
def probeAxis3 : Dim3.AlignAxisHelper (Dim3.AngularVector × Dim3.AngularVector) :=
  fun _ _ _ _ _ ax1 ax2 _ => some (ax1, ax2)

/-- A 3D translation-cancellation helper of the axis probe's result type
that always produces nothing, used to keep the index-0 branch inert while
probing index 1. -/
def probeTransNone3 : Dim3.CancelTransHelper (Dim3.AngularVector × Dim3.AngularVector) :=
  fun _ _ _ _ _ _ => none

/-!
Helper lemmas.
-/

/-- In-bounds writes to the 2D linear accumulator succeed and agree with the
total update. -/
theorem dim2_setLin_eq (v : Dim2.Vector2) (x : ℚ) {i : Nat} (h : i < Dim2.DIM) :
    Dim2.setLin v i x = some (Dim2.updateLin v i x) := by
  rcases i with _ | _ | i
  · rfl
  · rfl
  · exfalso
    simp [Dim2.DIM] at h
    omega

/-- In-bounds writes to the 2D angular accumulator succeed and agree with
the total update. -/
theorem dim2_setAng_eq (v : Dim2.AngularVector) (x : ℚ) {i : Nat}
    (h : i < Dim2.ANGULAR_DIM) :
    Dim2.setAng v i x = some (Dim2.updateAng v i x) := by
  rcases i with _ | i
  · rfl
  · exfalso
    simp [Dim2.ANGULAR_DIM] at h

/-- In-bounds writes to the 3D linear accumulator succeed and agree with the
total update. -/
theorem dim3_setLin_eq (v : Dim3.Vector3) (x : ℚ) {i : Nat} (h : i < Dim3.DIM) :
    Dim3.setLin v i x = some (Dim3.updateLin v i x) := by
  rcases i with _ | _ | _ | i
  · rfl
  · rfl
  · rfl
  · exfalso
    simp [Dim3.DIM] at h
    omega

/-- In-bounds writes to the 3D angular accumulator succeed and agree with
the total update. -/
theorem dim3_setAng_eq (v : Dim3.AngularVector) (x : ℚ) {i : Nat}
    (h : i < Dim3.ANGULAR_DIM) :
    Dim3.setAng v i x = some (Dim3.updateAng v i x) := by
  rcases i with _ | _ | _ | i
  · rfl
  · rfl
  · rfl
  · exfalso
    simp [Dim3.ANGULAR_DIM] at h
    omega

/-- When every row's impulse id is below `SPATIAL_DIM`, the 2D caching loop
succeeds and computes exactly the spec-side routing fold. -/
theorem dim2_cacheLoop_eq (rows : List BilateralRow) :
    ∀ j : Dim2.RevoluteConstraint,
      (∀ c ∈ rows, c.impulse_id < Dim2.SPATIAL_DIM) →
      Dim2.cacheLoop j rows =
        some { j with
          lin_impulses := (Dim2.routeSpec (j.lin_impulses, j.ang_impulses) rows).1
          ang_impulses := (Dim2.routeSpec (j.lin_impulses, j.ang_impulses) rows).2 } := by
  induction rows with
  | nil => intro j _; rfl
  | cons c rest ih =>
    intro j h
    have hc := h c (List.mem_cons_self c rest)
    have hrest := fun d hd => h d (List.mem_cons_of_mem c hd)
    by_cases hlt : c.impulse_id < Dim2.DIM
    · have hset := dim2_setLin_eq j.lin_impulses c.impulse hlt
      simp only [Dim2.cacheLoop, Dim2.applyRow, hlt, if_true, hset]
      rw [ih _ hrest]
      simp only [Dim2.routeSpec, List.foldl_cons, hlt, if_true]
    · have hang : c.impulse_id - Dim2.DIM < Dim2.ANGULAR_DIM := by
        simp [Dim2.DIM, Dim2.ANGULAR_DIM]
        simp [Dim2.SPATIAL_DIM] at hc
        simp [Dim2.DIM] at hlt
        omega
      have hset := dim2_setAng_eq j.ang_impulses c.impulse hang
      simp only [Dim2.cacheLoop, Dim2.applyRow, hlt, if_false, hset]
      rw [ih _ hrest]
      simp only [Dim2.routeSpec, List.foldl_cons, hlt, if_false]

/-- When every row's impulse id is below `SPATIAL_DIM`, the 3D caching loop
succeeds and computes exactly the spec-side routing fold. -/
theorem dim3_cacheLoop_eq (rows : List BilateralRow) :
    ∀ j : Dim3.RevoluteConstraint,
      (∀ c ∈ rows, c.impulse_id < Dim3.SPATIAL_DIM) →
      Dim3.cacheLoop j rows =
        some { j with
          lin_impulses := (Dim3.routeSpec (j.lin_impulses, j.ang_impulses) rows).1
          ang_impulses := (Dim3.routeSpec (j.lin_impulses, j.ang_impulses) rows).2 } := by
  induction rows with
  | nil => intro j _; rfl
  | cons c rest ih =>
    intro j h
    have hc := h c (List.mem_cons_self c rest)
    have hrest := fun d hd => h d (List.mem_cons_of_mem c hd)
    by_cases hlt : c.impulse_id < Dim3.DIM
    · have hset := dim3_setLin_eq j.lin_impulses c.impulse hlt
      simp only [Dim3.cacheLoop, Dim3.applyRow, hlt, if_true, hset]
      rw [ih _ hrest]
      simp only [Dim3.routeSpec, List.foldl_cons, hlt, if_true]
    · have hang : c.impulse_id - Dim3.DIM < Dim3.ANGULAR_DIM := by
        simp [Dim3.DIM, Dim3.ANGULAR_DIM]
        simp [Dim3.SPATIAL_DIM] at hc
        simp [Dim3.DIM] at hlt
        omega
      have hset := dim3_setAng_eq j.ang_impulses c.impulse hang
      simp only [Dim3.cacheLoop, Dim3.applyRow, hlt, if_false, hset]
      rw [ih _ hrest]
      simp only [Dim3.routeSpec, List.foldl_cons, hlt, if_false]

/-- A successful 2D caching loop only rewrites the impulse accumulators:
handles and anchors of the result are those of the input joint. -/
theorem dim2_cacheLoop_preserves (rows : List BilateralRow) :
    ∀ j j' : Dim2.RevoluteConstraint, Dim2.cacheLoop j rows = some j' →
      j'.b1 = j.b1 ∧ j'.b2 = j.b2 ∧ j'.anchor1 = j.anchor1 ∧
        j'.anchor2 = j.anchor2 ∧ j'.bilateral_ground_rng = j.bilateral_ground_rng ∧
        j'.bilateral_rng = j.bilateral_rng := by
  induction rows with
  | nil =>
    intro j j' h
    simp [Dim2.cacheLoop] at h
    subst h
    exact ⟨rfl, rfl, rfl, rfl, rfl, rfl⟩
  | cons c rest ih =>
    intro j j' h
    simp only [Dim2.cacheLoop] at h
    rcases h1 : Dim2.applyRow j c with _ | j1
    · rw [h1] at h
      exact absurd h (by simp)
    · rw [h1] at h
      have step : j1.b1 = j.b1 ∧ j1.b2 = j.b2 ∧ j1.anchor1 = j.anchor1 ∧
          j1.anchor2 = j.anchor2 ∧ j1.bilateral_ground_rng = j.bilateral_ground_rng ∧
          j1.bilateral_rng = j.bilateral_rng := by
        simp only [Dim2.applyRow] at h1
        by_cases hlt : c.impulse_id < Dim2.DIM
        · simp only [hlt, if_true] at h1
          rcases hs : Dim2.setLin j.lin_impulses c.impulse_id c.impulse with _ | v
          · rw [hs] at h1; exact absurd h1 (by simp)
          · rw [hs] at h1
            simp at h1
            subst h1
            exact ⟨rfl, rfl, rfl, rfl, rfl, rfl⟩
        · simp only [hlt, if_false] at h1
          rcases hs : Dim2.setAng j.ang_impulses (c.impulse_id - Dim2.DIM) c.impulse with _ | v
          · rw [hs] at h1; exact absurd h1 (by simp)
          · rw [hs] at h1
            simp at h1
            subst h1
            exact ⟨rfl, rfl, rfl, rfl, rfl, rfl⟩
      have tail := ih j1 j' h
      exact ⟨step.1 ▸ tail.1, step.2.1 ▸ tail.2.1, step.2.2.1 ▸ tail.2.2.1,
        step.2.2.2.1 ▸ tail.2.2.2.1, step.2.2.2.2.1 ▸ tail.2.2.2.2.1,
        step.2.2.2.2.2 ▸ tail.2.2.2.2.2⟩

/-- A successful 3D caching loop only rewrites the impulse accumulators:
handles, anchors and axes of the result are those of the input joint. -/
theorem dim3_cacheLoop_preserves (rows : List BilateralRow) :
    ∀ j j' : Dim3.RevoluteConstraint, Dim3.cacheLoop j rows = some j' →
      j'.b1 = j.b1 ∧ j'.b2 = j.b2 ∧ j'.anchor1 = j.anchor1 ∧
        j'.anchor2 = j.anchor2 ∧ j'.axis1 = j.axis1 ∧ j'.axis2 = j.axis2 := by
  induction rows with
  | nil =>
    intro j j' h
    simp [Dim3.cacheLoop] at h
    subst h
    exact ⟨rfl, rfl, rfl, rfl, rfl, rfl⟩
  | cons c rest ih =>
    intro j j' h
    simp only [Dim3.cacheLoop] at h
    rcases h1 : Dim3.applyRow j c with _ | j1
    · rw [h1] at h
      exact absurd h (by simp)
    · rw [h1] at h
      have step : j1.b1 = j.b1 ∧ j1.b2 = j.b2 ∧ j1.anchor1 = j.anchor1 ∧
          j1.anchor2 = j.anchor2 ∧ j1.axis1 = j.axis1 ∧ j1.axis2 = j.axis2 := by
        simp only [Dim3.applyRow] at h1
        by_cases hlt : c.impulse_id < Dim3.DIM
        · simp only [hlt, if_true] at h1
          rcases hs : Dim3.setLin j.lin_impulses c.impulse_id c.impulse with _ | v
          · rw [hs] at h1; exact absurd h1 (by simp)
          · rw [hs] at h1
            simp at h1
            subst h1
            exact ⟨rfl, rfl, rfl, rfl, rfl, rfl⟩
        · simp only [hlt, if_false] at h1
          rcases hs : Dim3.setAng j.ang_impulses (c.impulse_id - Dim3.DIM) c.impulse with _ | v
          · rw [hs] at h1; exact absurd h1 (by simp)
          · rw [hs] at h1
            simp at h1
            subst h1
            exact ⟨rfl, rfl, rfl, rfl, rfl, rfl⟩
      have tail := ih j1 j' h
      exact ⟨step.1 ▸ tail.1, step.2.1 ▸ tail.2.1, step.2.2.1 ▸ tail.2.2.1,
        step.2.2.2.1 ▸ tail.2.2.2.1, step.2.2.2.2.1 ▸ tail.2.2.2.2.1,
        step.2.2.2.2.2 ▸ tail.2.2.2.2.2⟩

/-!
Claim theorems.
-/

/-- C2: in both configurations and for every joint,
`num_velocity_constraints()` returns `SPATIAL_DIM − 1`, i.e. 2 in the 2D
build and 5 in the 3D build. -/
theorem num_velocity_constraints_eq_spatial_dim_sub_one :
    (∀ j : Dim2.RevoluteConstraint,
      Dim2.num_velocity_constraints j = Dim2.SPATIAL_DIM - 1 ∧
        Dim2.num_velocity_constraints j = 2) ∧
    (∀ j : Dim3.RevoluteConstraint,
      Dim3.num_velocity_constraints j = Dim3.SPATIAL_DIM - 1 ∧
        Dim3.num_velocity_constraints j = 5) :=
  ⟨fun _ => ⟨rfl, rfl⟩, fun _ => ⟨rfl, rfl⟩⟩

/-- C4: `num_position_constraints` returns 0 when the joint is inactive
over its two bodies (the activity predicate delegated to the body-access
collaborator), and otherwise 1 in the 2D configuration and 2 in the 3D
configuration. -/
theorem num_position_constraints_by_activity :
    (∀ (j : Dim2.RevoluteConstraint) (bodies : Dim2.BodySet),
      (Dim2.is_active j bodies = false →
        Dim2.num_position_constraints j bodies = 0) ∧
      (Dim2.is_active j bodies = true →
        Dim2.num_position_constraints j bodies = 1)) ∧
    (∀ (j : Dim3.RevoluteConstraint) (bodies : Dim3.BodySet),
      (Dim3.is_active j bodies = false →
        Dim3.num_position_constraints j bodies = 0) ∧
      (Dim3.is_active j bodies = true →
        Dim3.num_position_constraints j bodies = 2)) := by
  constructor
  · intro j bodies
    constructor
    · intro h
      simp [Dim2.num_position_constraints, h]
    · intro h
      simp [Dim2.num_position_constraints, h, Dim2.DIM]
  · intro j bodies
    constructor
    · intro h
      simp [Dim3.num_position_constraints, h]
    · intro h
      simp [Dim3.num_position_constraints, h, Dim3.DIM]

/-- Witness for C4 at concrete joints and body sets, active and inactive. -/
theorem num_position_constraints_by_activity_witness :
    Dim2.num_position_constraints joint2 bodies2 = 1 ∧
    Dim2.num_position_constraints joint2 bodies2off = 0 ∧
    Dim3.num_position_constraints joint3 bodies3 = 2 ∧
    Dim3.num_position_constraints joint3 bodies3off = 0 :=
  ⟨(num_position_constraints_by_activity.1 joint2 bodies2).2 rfl,
   (num_position_constraints_by_activity.1 joint2 bodies2off).1 rfl,
   (num_position_constraints_by_activity.2 joint3 bodies3).2 rfl,
   (num_position_constraints_by_activity.2 joint3 bodies3off).1 rfl⟩

/-- C5: after every call to `velocity_constraints`, the recorded
`bilateral_ground_rng` is exactly the before/after length range of the
shared ground list, and `bilateral_rng` that of the shared paired list,
overwritten regardless of any previously recorded range. -/
theorem velocity_constraints_record_ranges :
    (∀ (cancel : Dim2.CancelLinHelper) (j : Dim2.RevoluteConstraint)
        (bodies : Dim2.BodySet) (ext : List ℚ) (st : Dim2.SolverState),
      (Dim2.velocity_constraints cancel j bodies ext st).1.bilateral_ground_rng =
        ⟨st.constraints.velocity.bilateral_ground.length,
          (Dim2.velocity_constraints cancel j bodies ext
              st).2.constraints.velocity.bilateral_ground.length⟩ ∧
      (Dim2.velocity_constraints cancel j bodies ext st).1.bilateral_rng =
        ⟨st.constraints.velocity.bilateral.length,
          (Dim2.velocity_constraints cancel j bodies ext
              st).2.constraints.velocity.bilateral.length⟩) ∧
    (∀ (cancel : Dim3.CancelLinHelper) (restrict : Dim3.RestrictAngHelper)
        (j : Dim3.RevoluteConstraint) (bodies : Dim3.BodySet) (ext : List ℚ)
        (st : Dim3.SolverState),
      (Dim3.velocity_constraints cancel restrict j bodies ext st).1.bilateral_ground_rng =
        ⟨st.constraints.velocity.bilateral_ground.length,
          (Dim3.velocity_constraints cancel restrict j bodies ext
              st).2.constraints.velocity.bilateral_ground.length⟩ ∧
      (Dim3.velocity_constraints cancel restrict j bodies ext st).1.bilateral_rng =
        ⟨st.constraints.velocity.bilateral.length,
          (Dim3.velocity_constraints cancel restrict j bodies ext
              st).2.constraints.velocity.bilateral.length⟩) :=
  ⟨fun _ _ _ _ _ => ⟨rfl, rfl⟩, fun _ _ _ _ _ _ => ⟨rfl, rfl⟩⟩

/-- C3: `position_constraint` dispatches on the index: index 0 yields the
anchor-coincidence constraint through the translation-cancellation helper
applied to the world anchors computed from the bodies' current positions;
index 1 in the 3D configuration yields the axis-alignment constraint
through the align-axis helper applied to the world axes; every other index
(≥ 1 in 2D, ≥ 2 in 3D) yields `none`. -/
theorem position_constraint_index_dispatch :
    (∀ (α : Type) (cancelT : Dim2.CancelTransHelper α)
        (j : Dim2.RevoluteConstraint) (params : Dim2.IntegrationParameters)
        (bodies : Dim2.BodySet) (jac : List ℚ),
      Dim2.position_constraint cancelT j params 0 bodies jac =
        cancelT params (bodies.body_part j.b1) (bodies.body_part j.b2)
          (Dim2.applyPoint (bodies.body_part j.b1).position j.anchor1)
          (Dim2.applyPoint (bodies.body_part j.b2).position j.anchor2) jac ∧
      ∀ i : Nat, Dim2.position_constraint cancelT j params (i + 1) bodies jac = none) ∧
    (∀ (α : Type) (cancelT : Dim3.CancelTransHelper α) (alignA : Dim3.AlignAxisHelper α)
        (j : Dim3.RevoluteConstraint) (params : Dim3.IntegrationParameters)
        (bodies : Dim3.BodySet) (jac : List ℚ),
      Dim3.position_constraint cancelT alignA j params 0 bodies jac =
        cancelT params (bodies.body_part j.b1) (bodies.body_part j.b2)
          (Dim3.applyPoint (bodies.body_part j.b1).position j.anchor1)
          (Dim3.applyPoint (bodies.body_part j.b2).position j.anchor2) jac ∧
      Dim3.position_constraint cancelT alignA j params 1 bodies jac =
        alignA params (bodies.body_part j.b1) (bodies.body_part j.b2)
          (Dim3.applyPoint (bodies.body_part j.b1).position j.anchor1)
          (Dim3.applyPoint (bodies.body_part j.b2).position j.anchor2)
          (Dim3.applyVec (bodies.body_part j.b1).position j.axis1)
          (Dim3.applyVec (bodies.body_part j.b2).position j.axis2) jac ∧
      ∀ i : Nat, Dim3.position_constraint cancelT alignA j params (i + 2) bodies jac = none) :=
  ⟨fun _ _ _ _ _ _ => ⟨rfl, fun _ => rfl⟩,
   fun _ _ _ _ _ _ _ => ⟨rfl, rfl, fun _ => rfl⟩⟩

/-- C7: `velocity_constraints` emits the linear-velocity-cancellation
sub-constraint first, with impulse-id offset 0 and warm-started from
`lin_impulses`; in the 3D configuration the angular-velocity-to-axis
restriction then runs on the resulting state, with impulse-id offset `DIM`
and warm-started from `ang_impulses`; the two impulse-id blocks
(`[0, DIM)` and `[DIM, DIM + ANGULAR_DIM − 1)`) are disjoint. -/
theorem velocity_constraints_emission_order :
    (∀ (cancel : Dim2.CancelLinHelper) (j : Dim2.RevoluteConstraint)
        (bodies : Dim2.BodySet) (ext : List ℚ) (st : Dim2.SolverState),
      (Dim2.velocity_constraints cancel j bodies ext st).2 =
        cancel (bodies.body_part j.b1) (bodies.body_part j.b2)
          (bodies.body_part j.b1).parent_companion_id
          (bodies.body_part j.b2).parent_companion_id
          (Dim2.applyPoint (bodies.body_part j.b1).position j.anchor1)
          (Dim2.applyPoint (bodies.body_part j.b2).position j.anchor2)
          ext j.lin_impulses 0 st) ∧
    (∀ (cancel : Dim3.CancelLinHelper) (restrict : Dim3.RestrictAngHelper)
        (j : Dim3.RevoluteConstraint) (bodies : Dim3.BodySet) (ext : List ℚ)
        (st : Dim3.SolverState),
      (Dim3.velocity_constraints cancel restrict j bodies ext st).2 =
        restrict (bodies.body_part j.b1) (bodies.body_part j.b2)
          (bodies.body_part j.b1).parent_companion_id
          (bodies.body_part j.b2).parent_companion_id
          (Dim3.applyVec (bodies.body_part j.b1).position j.axis1)
          (Dim3.applyPoint (bodies.body_part j.b1).position j.anchor1)
          (Dim3.applyPoint (bodies.body_part j.b2).position j.anchor2)
          ext j.ang_impulses Dim3.DIM
          (cancel (bodies.body_part j.b1) (bodies.body_part j.b2)
            (bodies.body_part j.b1).parent_companion_id
            (bodies.body_part j.b2).parent_companion_id
            (Dim3.applyPoint (bodies.body_part j.b1).position j.anchor1)
            (Dim3.applyPoint (bodies.body_part j.b2).position j.anchor2)
            ext j.lin_impulses 0 st)) ∧
    Finset.range Dim3.DIM ∩
        (Finset.range (Dim3.ANGULAR_DIM - 1)).image (fun k => Dim3.DIM + k) = ∅ :=
  ⟨fun _ _ _ _ _ => rfl, fun _ _ _ _ _ _ => rfl, by decide⟩

/-- C9: in `velocity_constraints` and `position_constraint` the world
anchors handed to the helper collaborators are exactly the bodies' current
transforms (read from the body set at call time) applied to the joint's
immutable local anchors, and in 3D the world axes are the current
transforms applied to the local axes; this is observed through recording
helpers whose output is the received anchor/axis arguments. -/
theorem world_anchors_recomputed_each_call :
    (∀ (j : Dim2.RevoluteConstraint) (bodies : Dim2.BodySet) (ext : List ℚ)
        (st : Dim2.SolverState),
      (Dim2.velocity_constraints cancelRec2 j bodies ext st).2.jacobians =
        [(Dim2.applyPoint (bodies.body_part j.b1).position j.anchor1).1,
         (Dim2.applyPoint (bodies.body_part j.b1).position j.anchor1).2,
         (Dim2.applyPoint (bodies.body_part j.b2).position j.anchor2).1,
         (Dim2.applyPoint (bodies.body_part j.b2).position j.anchor2).2]) ∧
    (∀ (j : Dim2.RevoluteConstraint) (params : Dim2.IntegrationParameters)
        (bodies : Dim2.BodySet) (jac : List ℚ),
      Dim2.position_constraint probeTrans2 j params 0 bodies jac =
        some (Dim2.applyPoint (bodies.body_part j.b1).position j.anchor1,
          Dim2.applyPoint (bodies.body_part j.b2).position j.anchor2)) ∧
    (∀ (j : Dim3.RevoluteConstraint) (bodies : Dim3.BodySet) (ext : List ℚ)
        (st : Dim3.SolverState),
      (Dim3.velocity_constraints cancelRec3 restrictRec3 j bodies ext st).2.jacobians =
        [(Dim3.applyPoint (bodies.body_part j.b1).position j.anchor1).1,
         (Dim3.applyPoint (bodies.body_part j.b1).position j.anchor1).2.1,
         (Dim3.applyPoint (bodies.body_part j.b1).position j.anchor1).2.2,
         (Dim3.applyPoint (bodies.body_part j.b2).position j.anchor2).1,
         (Dim3.applyPoint (bodies.body_part j.b2).position j.anchor2).2.1,
         (Dim3.applyPoint (bodies.body_part j.b2).position j.anchor2).2.2,
         (Dim3.applyVec (bodies.body_part j.b1).position j.axis1).1,
         (Dim3.applyVec (bodies.body_part j.b1).position j.axis1).2.1,
         (Dim3.applyVec (bodies.body_part j.b1).position j.axis1).2.2]) ∧
    (∀ (j : Dim3.RevoluteConstraint) (params : Dim3.IntegrationParameters)
        (bodies : Dim3.BodySet) (jac : List ℚ),
      Dim3.position_constraint probeTrans3 probeAxis3 j params 0 bodies jac =
        some (Dim3.applyPoint (bodies.body_part j.b1).position j.anchor1,
          Dim3.applyPoint (bodies.body_part j.b2).position j.anchor2) ∧
      Dim3.position_constraint probeTransNone3 probeAxis3 j params 1 bodies jac =
        some (Dim3.applyVec (bodies.body_part j.b1).position j.axis1,
          Dim3.applyVec (bodies.body_part j.b2).position j.axis2)) :=
  ⟨fun _ _ _ _ => rfl, fun _ _ _ _ => rfl, fun _ _ _ _ => rfl,
   fun _ _ _ _ => ⟨rfl, rfl⟩⟩

/-- C8: no operation mutates the joint's body handles, local anchors or
(3D) local axes: `velocity_constraints` only rewrites the recorded ranges,
and a successful `cache_impulses` only rewrites the impulse accumulators;
the remaining operations take the joint immutably. -/
theorem construction_fields_never_mutated :
    (∀ (cancel : Dim2.CancelLinHelper) (j : Dim2.RevoluteConstraint)
        (bodies : Dim2.BodySet) (ext : List ℚ) (st : Dim2.SolverState),
      (Dim2.velocity_constraints cancel j bodies ext st).1.b1 = j.b1 ∧
      (Dim2.velocity_constraints cancel j bodies ext st).1.b2 = j.b2 ∧
      (Dim2.velocity_constraints cancel j bodies ext st).1.anchor1 = j.anchor1 ∧
      (Dim2.velocity_constraints cancel j bodies ext st).1.anchor2 = j.anchor2) ∧
    (∀ (j : Dim2.RevoluteConstraint) (cs : ConstraintSet)
        (out : Dim2.RevoluteConstraint × ConstraintSet),
      Dim2.cache_impulses j cs = some out →
        out.1.b1 = j.b1 ∧ out.1.b2 = j.b2 ∧ out.1.anchor1 = j.anchor1 ∧
          out.1.anchor2 = j.anchor2) ∧
    (∀ (cancel : Dim3.CancelLinHelper) (restrict : Dim3.RestrictAngHelper)
        (j : Dim3.RevoluteConstraint) (bodies : Dim3.BodySet) (ext : List ℚ)
        (st : Dim3.SolverState),
      (Dim3.velocity_constraints cancel restrict j bodies ext st).1.b1 = j.b1 ∧
      (Dim3.velocity_constraints cancel restrict j bodies ext st).1.b2 = j.b2 ∧
      (Dim3.velocity_constraints cancel restrict j bodies ext st).1.anchor1 = j.anchor1 ∧
      (Dim3.velocity_constraints cancel restrict j bodies ext st).1.anchor2 = j.anchor2 ∧
      (Dim3.velocity_constraints cancel restrict j bodies ext st).1.axis1 = j.axis1 ∧
      (Dim3.velocity_constraints cancel restrict j bodies ext st).1.axis2 = j.axis2) ∧
    (∀ (j : Dim3.RevoluteConstraint) (cs : ConstraintSet)
        (out : Dim3.RevoluteConstraint × ConstraintSet),
      Dim3.cache_impulses j cs = some out →
        out.1.b1 = j.b1 ∧ out.1.b2 = j.b2 ∧ out.1.anchor1 = j.anchor1 ∧
          out.1.anchor2 = j.anchor2 ∧ out.1.axis1 = j.axis1 ∧
          out.1.axis2 = j.axis2) := by
  refine ⟨fun _ _ _ _ _ => ⟨rfl, rfl, rfl, rfl⟩, ?_,
    fun _ _ _ _ _ _ => ⟨rfl, rfl, rfl, rfl, rfl, rfl⟩, ?_⟩
  · intro j cs out h
    simp only [Dim2.cache_impulses, bind, Option.bind_eq_some, Option.some.injEq] at h
    obtain ⟨g, _, j1, hj1, b, _, j2, hj2, hout⟩ := h
    simp only [Option.pure_def, Option.some.injEq] at hout
    subst hout
    have p1 := dim2_cacheLoop_preserves g j j1 hj1
    have p2 := dim2_cacheLoop_preserves b j1 j2 hj2
    exact ⟨p2.1.trans p1.1, p2.2.1.trans p1.2.1, p2.2.2.1.trans p1.2.2.1,
      p2.2.2.2.1.trans p1.2.2.2.1⟩
  · intro j cs out h
    simp only [Dim3.cache_impulses, bind, Option.bind_eq_some, Option.some.injEq] at h
    obtain ⟨g, _, j1, hj1, b, _, j2, hj2, hout⟩ := h
    simp only [Option.pure_def, Option.some.injEq] at hout
    subst hout
    have p1 := dim3_cacheLoop_preserves g j j1 hj1
    have p2 := dim3_cacheLoop_preserves b j1 j2 hj2
    exact ⟨p2.1.trans p1.1, p2.2.1.trans p1.2.1, p2.2.2.1.trans p1.2.2.1,
      p2.2.2.2.1.trans p1.2.2.2.1, p2.2.2.2.2.1.trans p1.2.2.2.2.1,
      p2.2.2.2.2.2.trans p1.2.2.2.2.2⟩

/-- Witness for C8: a concrete successful `cache_impulses` call in each
configuration, with handles, anchors and axes observed unchanged. -/
theorem construction_fields_never_mutated_witness :
    (({ joint2r with lin_impulses := (5, 9) }, cset2).1.b1 = joint2r.b1 ∧
      ({ joint2r with lin_impulses := (5, 9) }, cset2).1.b2 = joint2r.b2 ∧
      ({ joint2r with lin_impulses := (5, 9) }, cset2).1.anchor1 = joint2r.anchor1 ∧
      ({ joint2r with lin_impulses := (5, 9) }, cset2).1.anchor2 = joint2r.anchor2) ∧
    (({ joint3r with lin_impulses := (5, 0, 0), ang_impulses := (0, 13, 9) },
        cset3).1.b1 = joint3r.b1 ∧
      ({ joint3r with lin_impulses := (5, 0, 0), ang_impulses := (0, 13, 9) },
        cset3).1.b2 = joint3r.b2 ∧
      ({ joint3r with lin_impulses := (5, 0, 0), ang_impulses := (0, 13, 9) },
        cset3).1.anchor1 = joint3r.anchor1 ∧
      ({ joint3r with lin_impulses := (5, 0, 0), ang_impulses := (0, 13, 9) },
        cset3).1.anchor2 = joint3r.anchor2 ∧
      ({ joint3r with lin_impulses := (5, 0, 0), ang_impulses := (0, 13, 9) },
        cset3).1.axis1 = joint3r.axis1 ∧
      ({ joint3r with lin_impulses := (5, 0, 0), ang_impulses := (0, 13, 9) },
        cset3).1.axis2 = joint3r.axis2) :=
  ⟨construction_fields_never_mutated.2.1 joint2r cset2 _ (by decide),
   construction_fields_never_mutated.2.2.2 joint3r cset3 _ (by decide)⟩

/-- C10: a freshly constructed joint has zero impulse accumulators and
empty (`0..0`) recorded ranges, and `cache_impulses` on it succeeds for any
constraint set, iterating no rows and leaving the joint unchanged. -/
theorem fresh_joint_cache_impulses_noop :
    (∀ (b1 b2 : Nat) (a1 a2 : Dim2.Point),
      (Dim2.new b1 b2 a1 a2).lin_impulses = (0, 0) ∧
      (Dim2.new b1 b2 a1 a2).ang_impulses = 0 ∧
      (Dim2.new b1 b2 a1 a2).bilateral_ground_rng = ⟨0, 0⟩ ∧
      (Dim2.new b1 b2 a1 a2).bilateral_rng = ⟨0, 0⟩ ∧
      ∀ cs : ConstraintSet,
        Dim2.cache_impulses (Dim2.new b1 b2 a1 a2) cs =
          some (Dim2.new b1 b2 a1 a2, cs)) ∧
    (∀ (b1 b2 : Nat) (a1 a2 : Dim3.Point) (ax1 ax2 : Dim3.AngularVector),
      (Dim3.new b1 b2 a1 ax1 a2 ax2).lin_impulses = (0, 0, 0) ∧
      (Dim3.new b1 b2 a1 ax1 a2 ax2).ang_impulses = (0, 0, 0) ∧
      (Dim3.new b1 b2 a1 ax1 a2 ax2).bilateral_ground_rng = ⟨0, 0⟩ ∧
      (Dim3.new b1 b2 a1 ax1 a2 ax2).bilateral_rng = ⟨0, 0⟩ ∧
      ∀ cs : ConstraintSet,
        Dim3.cache_impulses (Dim3.new b1 b2 a1 ax1 a2 ax2) cs =
          some (Dim3.new b1 b2 a1 ax1 a2 ax2, cs)) := by
  constructor
  · intro b1 b2 a1 a2
    refine ⟨rfl, rfl, rfl, rfl, fun cs => ?_⟩
    simp [Dim2.cache_impulses, sliceRange, Dim2.new, Dim2.cacheLoop]
  · intro b1 b2 a1 a2 ax1 ax2
    refine ⟨rfl, rfl, rfl, rfl, fun cs => ?_⟩
    simp [Dim3.cache_impulses, sliceRange, Dim3.new, Dim3.cacheLoop]

/-- C6: under the helper row-count contract (the linear-cancellation helper
appends exactly `DIM` rows across the two shared lists, the
angular-restriction helper exactly `ANGULAR_DIM − 1`), every call to
`velocity_constraints` appends in total exactly
`num_velocity_constraints() = SPATIAL_DIM − 1` rows. -/
theorem velocity_constraints_total_row_count :
    (∀ cancel : Dim2.CancelLinHelper,
      (∀ (p1 p2 : Dim2.BodyPart) (i1 i2 : Nat) (a1 a2 : Dim2.Point)
          (ev : List ℚ) (wi : Dim2.Vector2) (off : Nat) (st : Dim2.SolverState),
        Dim2.totalRows (cancel p1 p2 i1 i2 a1 a2 ev wi off st) =
          Dim2.totalRows st + Dim2.DIM) →
      ∀ (j : Dim2.RevoluteConstraint) (bodies : Dim2.BodySet) (ext : List ℚ)
          (st : Dim2.SolverState),
        Dim2.totalRows (Dim2.velocity_constraints cancel j bodies ext st).2 =
          Dim2.totalRows st + Dim2.num_velocity_constraints j) ∧
    (∀ (cancel : Dim3.CancelLinHelper) (restrict : Dim3.RestrictAngHelper),
      (∀ (p1 p2 : Dim3.BodyPart) (i1 i2 : Nat) (a1 a2 : Dim3.Point)
          (ev : List ℚ) (wi : Dim3.Vector3) (off : Nat) (st : Dim3.SolverState),
        Dim3.totalRows (cancel p1 p2 i1 i2 a1 a2 ev wi off st) =
          Dim3.totalRows st + Dim3.DIM) →
      (∀ (p1 p2 : Dim3.BodyPart) (i1 i2 : Nat) (ax : Dim3.AngularVector)
          (a1 a2 : Dim3.Point) (ev : List ℚ) (wi : Dim3.AngularVector)
          (off : Nat) (st : Dim3.SolverState),
        Dim3.totalRows (restrict p1 p2 i1 i2 ax a1 a2 ev wi off st) =
          Dim3.totalRows st + (Dim3.ANGULAR_DIM - 1)) →
      ∀ (j : Dim3.RevoluteConstraint) (bodies : Dim3.BodySet) (ext : List ℚ)
          (st : Dim3.SolverState),
        Dim3.totalRows (Dim3.velocity_constraints cancel restrict j bodies ext st).2 =
          Dim3.totalRows st + Dim3.num_velocity_constraints j) := by
  constructor
  · intro cancel hc j bodies ext st
    have h2 : (Dim2.velocity_constraints cancel j bodies ext st).2 =
        cancel (bodies.body_part j.b1) (bodies.body_part j.b2)
          (bodies.body_part j.b1).parent_companion_id
          (bodies.body_part j.b2).parent_companion_id
          (Dim2.applyPoint (bodies.body_part j.b1).position j.anchor1)
          (Dim2.applyPoint (bodies.body_part j.b2).position j.anchor2)
          ext j.lin_impulses 0 st := rfl
    rw [h2, hc]
    rfl
  · intro cancel restrict hc hr j bodies ext st
    have h3 : (Dim3.velocity_constraints cancel restrict j bodies ext st).2 =
        restrict (bodies.body_part j.b1) (bodies.body_part j.b2)
          (bodies.body_part j.b1).parent_companion_id
          (bodies.body_part j.b2).parent_companion_id
          (Dim3.applyVec (bodies.body_part j.b1).position j.axis1)
          (Dim3.applyPoint (bodies.body_part j.b1).position j.anchor1)
          (Dim3.applyPoint (bodies.body_part j.b2).position j.anchor2)
          ext j.ang_impulses Dim3.DIM
          (cancel (bodies.body_part j.b1) (bodies.body_part j.b2)
            (bodies.body_part j.b1).parent_companion_id
            (bodies.body_part j.b2).parent_companion_id
            (Dim3.applyPoint (bodies.body_part j.b1).position j.anchor1)
            (Dim3.applyPoint (bodies.body_part j.b2).position j.anchor2)
            ext j.lin_impulses 0 st) := rfl
    rw [h3, hr, hc]
    rfl

/-- Witness for C6: concrete helpers satisfying the row-count contract, a
concrete joint, body set and empty solver state, in both configurations. -/
theorem velocity_constraints_total_row_count_witness :
    Dim2.totalRows (Dim2.velocity_constraints cancelLin2 joint2 bodies2 [] state2).2 =
      Dim2.totalRows state2 + Dim2.num_velocity_constraints joint2 ∧
    Dim3.totalRows
        (Dim3.velocity_constraints cancelLin3 restrictAng3 joint3 bodies3 [] state3).2 =
      Dim3.totalRows state3 + Dim3.num_velocity_constraints joint3 :=
  ⟨velocity_constraints_total_row_count.1 cancelLin2
      (by
        intro p1 p2 i1 i2 a1 a2 ev wi off st
        simp [cancelLin2, Dim2.totalRows, Dim2.DIM]
        omega)
      joint2 bodies2 [] state2,
   velocity_constraints_total_row_count.2 cancelLin3 restrictAng3
      (by
        intro p1 p2 i1 i2 a1 a2 ev wi off st
        simp [cancelLin3, Dim3.totalRows, Dim3.DIM]
        omega)
      (by
        intro p1 p2 i1 i2 ax a1 a2 ev wi off st
        simp [restrictAng3, Dim3.totalRows, Dim3.ANGULAR_DIM]
        omega)
      joint3 bodies3 [] state3⟩

/-- C1: when the recorded ranges lie within the shared lists and every row
in them carries an in-range impulse id, `cache_impulses` succeeds, leaving
the constraint set untouched, and its effect on the joint is exactly the
spec-side routing fold over the ground slice followed by the paired slice:
each row of the two recorded ranges is read once, its impulse written to
`lin_impulses[impulse_id]` when `impulse_id < DIM` and to
`ang_impulses[impulse_id − DIM]` otherwise; all other joint fields are
unchanged. -/
theorem cache_impulses_routes_recorded_ranges :
    (∀ (j : Dim2.RevoluteConstraint) (cs : ConstraintSet) (g b : List BilateralRow),
      sliceRange cs.velocity.bilateral_ground j.bilateral_ground_rng = some g →
      sliceRange cs.velocity.bilateral j.bilateral_rng = some b →
      (∀ c ∈ g ++ b, c.impulse_id < Dim2.SPATIAL_DIM) →
      Dim2.cache_impulses j cs =
        some ({ j with
            lin_impulses := (Dim2.routeSpec (j.lin_impulses, j.ang_impulses) (g ++ b)).1
            ang_impulses := (Dim2.routeSpec (j.lin_impulses, j.ang_impulses) (g ++ b)).2 },
          cs)) ∧
    (∀ (j : Dim3.RevoluteConstraint) (cs : ConstraintSet) (g b : List BilateralRow),
      sliceRange cs.velocity.bilateral_ground j.bilateral_ground_rng = some g →
      sliceRange cs.velocity.bilateral j.bilateral_rng = some b →
      (∀ c ∈ g ++ b, c.impulse_id < Dim3.SPATIAL_DIM) →
      Dim3.cache_impulses j cs =
        some ({ j with
            lin_impulses := (Dim3.routeSpec (j.lin_impulses, j.ang_impulses) (g ++ b)).1
            ang_impulses := (Dim3.routeSpec (j.lin_impulses, j.ang_impulses) (g ++ b)).2 },
          cs)) := by
  constructor
  · intro j cs g b hg hb hids
    have hgids : ∀ c ∈ g, c.impulse_id < Dim2.SPATIAL_DIM :=
      fun c hc => hids c (List.mem_append_left _ hc)
    have hbids : ∀ c ∈ b, c.impulse_id < Dim2.SPATIAL_DIM :=
      fun c hc => hids c (List.mem_append_right _ hc)
    have l1 := dim2_cacheLoop_eq g j hgids
    have l2 := dim2_cacheLoop_eq b
      { j with
          lin_impulses := (Dim2.routeSpec (j.lin_impulses, j.ang_impulses) g).1
          ang_impulses := (Dim2.routeSpec (j.lin_impulses, j.ang_impulses) g).2 } hbids
    simp only [Dim2.cache_impulses, hg, hb, l1, l2, Option.bind_eq_bind,
      Option.some_bind, Option.pure_def, Option.some.injEq]
    simp [Dim2.routeSpec, List.foldl_append]
  · intro j cs g b hg hb hids
    have hgids : ∀ c ∈ g, c.impulse_id < Dim3.SPATIAL_DIM :=
      fun c hc => hids c (List.mem_append_left _ hc)
    have hbids : ∀ c ∈ b, c.impulse_id < Dim3.SPATIAL_DIM :=
      fun c hc => hids c (List.mem_append_right _ hc)
    have l1 := dim3_cacheLoop_eq g j hgids
    have l2 := dim3_cacheLoop_eq b
      { j with
          lin_impulses := (Dim3.routeSpec (j.lin_impulses, j.ang_impulses) g).1
          ang_impulses := (Dim3.routeSpec (j.lin_impulses, j.ang_impulses) g).2 } hbids
    simp only [Dim3.cache_impulses, hg, hb, l1, l2, Option.bind_eq_bind,
      Option.some_bind, Option.pure_def, Option.some.injEq]
    simp [Dim3.routeSpec, List.foldl_append]

/-- Witness for C1: concrete joints whose recorded ranges select one ground
row and one or two paired rows of concrete constraint sets, with routed
accumulators computed explicitly. -/
theorem cache_impulses_routes_recorded_ranges_witness :
    (sliceRange cset2.velocity.bilateral_ground joint2r.bilateral_ground_rng =
        some [⟨0, 5⟩] ∧
      sliceRange cset2.velocity.bilateral joint2r.bilateral_rng = some [⟨1, 9⟩] ∧
      Dim2.cache_impulses joint2r cset2 =
        some ({ joint2r with
            lin_impulses :=
              (Dim2.routeSpec (joint2r.lin_impulses, joint2r.ang_impulses)
                ([⟨0, 5⟩] ++ [⟨1, 9⟩])).1
            ang_impulses :=
              (Dim2.routeSpec (joint2r.lin_impulses, joint2r.ang_impulses)
                ([⟨0, 5⟩] ++ [⟨1, 9⟩])).2 },
          cset2)) ∧
    (sliceRange cset3.velocity.bilateral_ground joint3r.bilateral_ground_rng =
        some [⟨0, 5⟩, ⟨4, 13⟩] ∧
      sliceRange cset3.velocity.bilateral joint3r.bilateral_rng = some [⟨5, 9⟩] ∧
      Dim3.cache_impulses joint3r cset3 =
        some ({ joint3r with
            lin_impulses :=
              (Dim3.routeSpec (joint3r.lin_impulses, joint3r.ang_impulses)
                ([⟨0, 5⟩, ⟨4, 13⟩] ++ [⟨5, 9⟩])).1
            ang_impulses :=
              (Dim3.routeSpec (joint3r.lin_impulses, joint3r.ang_impulses)
                ([⟨0, 5⟩, ⟨4, 13⟩] ++ [⟨5, 9⟩])).2 },
          cset3)) :=
  ⟨⟨by decide, by decide,
      cache_impulses_routes_recorded_ranges.1 joint2r cset2 [⟨0, 5⟩] [⟨1, 9⟩]
        (by decide) (by decide) (by decide)⟩,
   ⟨by decide, by decide,
      cache_impulses_routes_recorded_ranges.2 joint3r cset3 [⟨0, 5⟩, ⟨4, 13⟩] [⟨5, 9⟩]
        (by decide) (by decide) (by decide)⟩⟩

end Nphysics
